import Mathlib

/-!
# Leaf gate: connection gateway (`gate/gate.go`)

A shallow embedding of `gate.go`: the `Gate` configuration, the servers `Gate.Run`
builds, starts and closes, the connection factories, and the per-connection `agent`
with its read loop, close notification and write path.

Collaborators that live in other packages (`network`, `chanrpc`, `log`) are not part of
`gate.go`.  They are represented by handles, their calls are recorded as events, and the
answers of the calls whose result `gate.go` inspects are supplied by a `World`.
-/

namespace gate

/-! ## Values that cross the package boundary -/

/-- A Go `error` value returned by a collaborator.  Only its presence is inspected by
`gate.go`; the text is what `%v` prints. -/
structure Error where
  text : String
  deriving DecidableEq, Repr

/-- A Go `interface{}` value (an application message, or the user-data attachment).
`gate.go` never looks inside one, so a code stands for it. -/
structure Any where
  code : Nat
  deriving DecidableEq, Repr

/-- A raw frame, Go `[]byte`. -/
abbrev Frame := List Nat

namespace network

/-- Modelled from the spec: the `network.Processor` interface value held by the Gate
(`Unmarshal`, `Route`, `Marshal`); the handle names the implementation. -/
structure Processor where
  id : Nat
  deriving DecidableEq, Repr

/-- Modelled from the spec: a `*network.TCPConn` connection handle. -/
structure TCPConn where
  id : Nat
  deriving DecidableEq, Repr

/-- Modelled from the spec: a `*network.WSConn` connection handle. -/
structure WSConn where
  id : Nat
  deriving DecidableEq, Repr

/-- Modelled from the spec: the `network.Conn` interface; in `gate.go` it is inhabited by
the connection a TCP or a WebSocket server hands to its factory. -/
inductive Conn where
  | tcp (c : TCPConn)
  | ws (c : WSConn)
  deriving DecidableEq, Repr

end network

namespace chanrpc

/-- Modelled from the spec: a `*chanrpc.Server` handle (`Go`, `Call0`). -/
structure Server where
  id : Nat
  deriving DecidableEq, Repr

end chanrpc

/-! ## Gate and agent -/

/-- The `Gate` struct: `int` and `time.Duration` fields are integers, `uint32` is a
natural number (it is only copied), nil-able references are options. -/
structure Gate where
  MaxConnNum : Int
  PendingWriteNum : Int
  MaxMsgLen : Nat
  Processor : Option network.Processor
  AgentChanRPC : Option chanrpc.Server
  WSAddr : String
  WSPort : String
  WSSPort : String
  HTTPTimeout : Int
  CertFile : String
  KeyFile : String
  TCPAddr : String
  LenMsgLen : Int
  LittleEndian : Bool
  deriving DecidableEq, Repr

/-- The `agent` struct: connection, owning gate, user-data slot (`none` is Go `nil`). -/
structure agent where
  conn : network.Conn
  gate : Gate
  userData : Option Any
  deriving DecidableEq, Repr

/-- An argument printed by a log call. -/
inductive LogArg where
  | err (e : Error)
  | typeOf (msg : Any)
  deriving DecidableEq, Repr

/-- One call made by agent-level code on a collaborator, with the answer it got.
`Except.error`/`some` answers are Go non-nil errors. -/
inductive Event where
  | ReadMsg (conn : network.Conn) (res : Except Error Frame)
  | WriteMsg (conn : network.Conn) (data : List Frame) (res : Option Error)
  | Close (conn : network.Conn)
  | Destroy (conn : network.Conn)
  | Unmarshal (p : network.Processor) (data : Frame) (res : Except Error Any)
  | Route (p : network.Processor) (msg : Any) (a : agent) (res : Option Error)
  | Marshal (p : network.Processor) (msg : Any) (res : Except Error (List Frame))
  | Go (s : chanrpc.Server) (id : String) (args : List agent)
  | Call0 (s : chanrpc.Server) (id : String) (args : List agent) (res : Option Error)
  | logDebug (format : String) (args : List LogArg)
  | logError (format : String) (args : List LogArg)

/-- Modelled from the spec: the answers of the collaborators whose result `gate.go`
inspects, as state-passing functions over an arbitrary collaborator state `σ`
(`Conn.WriteMsg`, `Processor.Unmarshal/Route/Marshal`, `chanrpc.Server.Call0`). -/
structure World (σ : Type) where
  WriteMsg : network.Conn → List Frame → σ → Option Error × σ
  Unmarshal : network.Processor → Frame → σ → Except Error Any × σ
  Route : network.Processor → Any → agent → σ → Option Error × σ
  Marshal : network.Processor → Any → σ → Except Error (List Frame) × σ
  Call0 : chanrpc.Server → String → List agent → σ → Option Error × σ

/-! ## Transport servers -/

namespace network

/-- Modelled from the spec: the fields of `network.WSServer` that `gate.go` sets.  The
factory returns the agent together with the calls it made. -/
structure WSServer where
  Addr : String
  MaxConnNum : Int
  PendingWriteNum : Int
  MaxMsgLen : Nat
  HTTPTimeout : Int
  CertFile : String
  KeyFile : String
  NewAgent : WSConn → agent × List Event

/-- Modelled from the spec: the fields of `network.TCPServer` that `gate.go` sets. -/
structure TCPServer where
  Addr : String
  MaxConnNum : Int
  PendingWriteNum : Int
  LenMsgLen : Int
  MaxMsgLen : Nat
  LittleEndian : Bool
  NewAgent : TCPConn → agent × List Event

end network

/-- A server `Gate.Run` operates on. -/
inductive Server where
  | ws (s : network.WSServer)
  | tcp (s : network.TCPServer)

/-- An operation of `Gate.Run` visible outside it. -/
inductive Op where
  | Start (s : Server)
  | Recv
  | Close (s : Server)

/-- How a run of `Gate.Run` ends: it returns, it panics with a value, or it stays
blocked on `<-closeSig` because no value ever arrives. -/
inductive Outcome where
  | returned
  | panicked (v : String)
  | blocked
  deriving DecidableEq, Repr

/-- The local variables of `Gate.Run` when it ends, the operations it performed in
order, and how it ended. -/
structure RunResult where
  wsServers : List network.WSServer
  tcpServer : Option network.TCPServer
  trace : List Op
  outcome : Outcome

/-- `Gate.newWSServer`: `Except.error v` is `panic(v)`. -/
def Gate.newWSServer (gate : Gate) (port : String) (isWSS : Bool) :
    Except String network.WSServer :=
  let addr := gate.WSAddr ++ ":" ++ port
  let wsServer : network.WSServer :=
    { Addr := addr
      MaxConnNum := gate.MaxConnNum
      PendingWriteNum := gate.PendingWriteNum
      MaxMsgLen := gate.MaxMsgLen
      HTTPTimeout := gate.HTTPTimeout
      CertFile := ""
      KeyFile := ""
      NewAgent := fun conn =>
        let a : agent := { conn := .ws conn, gate := gate, userData := none }
        match gate.AgentChanRPC with
        | some rpc => (a, [Event.Go rpc "NewAgent" [a]])
        | none => (a, []) }
  if isWSS then
    if gate.CertFile = "" ∨ gate.KeyFile = "" then
      .error "lack of SSL cert or key file"
    else
      .ok { wsServer with CertFile := gate.CertFile, KeyFile := gate.KeyFile }
  else
    .ok wsServer

/-- `Gate.Run`.  `closeSig` is what the receive on the channel yields: `some v` when a
value arrives, `none` when none ever does. -/
def Gate.Run (gate : Gate) (closeSig : Option Bool) : RunResult :=
  let wsServers : List network.WSServer := []
  match (if gate.WSAddr ≠ "" ∧ gate.WSPort ≠ "" then
          (gate.newWSServer gate.WSPort false).map (fun s => wsServers ++ [s])
        else .ok wsServers) with
  | .error v => { wsServers := wsServers, tcpServer := none, trace := [], outcome := .panicked v }
  | .ok wsServers =>
    match (if gate.WSAddr ≠ "" ∧ gate.WSSPort ≠ "" then
            (gate.newWSServer gate.WSSPort true).map (fun s => wsServers ++ [s])
          else .ok wsServers) with
    | .error v =>
      { wsServers := wsServers, tcpServer := none, trace := [], outcome := .panicked v }
    | .ok wsServers =>
      let tcpServer : Option network.TCPServer :=
        if gate.TCPAddr ≠ "" then
          some
            { Addr := gate.TCPAddr
              MaxConnNum := gate.MaxConnNum
              PendingWriteNum := gate.PendingWriteNum
              LenMsgLen := gate.LenMsgLen
              MaxMsgLen := gate.MaxMsgLen
              LittleEndian := gate.LittleEndian
              NewAgent := fun conn =>
                let a : agent := { conn := .tcp conn, gate := gate, userData := none }
                match gate.AgentChanRPC with
                | some rpc => (a, [Event.Go rpc "NewAgent" [a]])
                | none => (a, []) }
        else none
      let starts : List Op :=
        (if ¬ wsServers.isEmpty then wsServers.map (fun s => Op.Start (.ws s)) else [])
          ++ (match tcpServer with
              | some s => [Op.Start (.tcp s)]
              | none => [])
      match closeSig with
      | none =>
        { wsServers := wsServers, tcpServer := tcpServer, trace := starts ++ [Op.Recv],
          outcome := .blocked }
      | some _ =>
        let closes : List Op :=
          (if ¬ wsServers.isEmpty then wsServers.map (fun s => Op.Close (.ws s)) else [])
            ++ (match tcpServer with
                | some s => [Op.Close (.tcp s)]
                | none => [])
        { wsServers := wsServers, tcpServer := tcpServer,
          trace := starts ++ [Op.Recv] ++ closes, outcome := .returned }

/-! ## Agent -/

/-- What a call of an agent method did: the collaborator state it leaves, the calls it
made in order, and whether it returned.  `returned = false` occurs only for `agent.Run`
still blocked in `ReadMsg` after the given read results were consumed. -/
structure Ran (σ : Type) where
  state : σ
  trace : List Event
  returned : Bool

/-- `agent.Run`, the read loop.  `reads` is the sequence of results the connection's
`ReadMsg` returns, oldest first; one is consumed per iteration, and when none is left the
loop is blocked in `ReadMsg` (`returned = false`). -/
def agent.Run {σ : Type} (w : World σ) (a : agent) :
    List (Except Error Frame) → σ → Ran σ
  | [], s => { state := s, trace := [], returned := false }
  | .error err :: _, s =>
    { state := s
      trace := [Event.ReadMsg a.conn (.error err),
                Event.logDebug "read message: %v" [.err err]]
      returned := true }
  | .ok data :: reads, s =>
    match a.gate.Processor with
    | some p =>
      match w.Unmarshal p data s with
      | (.error err, s1) =>
        { state := s1
          trace := [Event.ReadMsg a.conn (.ok data), Event.Unmarshal p data (.error err),
                    Event.logDebug "unmarshal message error: %v" [.err err]]
          returned := true }
      | (.ok msg, s1) =>
        match w.Route p msg a s1 with
        | (some err, s2) =>
          { state := s2
            trace := [Event.ReadMsg a.conn (.ok data), Event.Unmarshal p data (.ok msg),
                      Event.Route p msg a (some err),
                      Event.logDebug "route message error: %v" [.err err]]
            returned := true }
        | (none, s2) =>
          let r := agent.Run w a reads s2
          { r with
            trace := [Event.ReadMsg a.conn (.ok data), Event.Unmarshal p data (.ok msg),
                      Event.Route p msg a none] ++ r.trace }
    | none =>
      let r := agent.Run w a reads s
      { r with trace := Event.ReadMsg a.conn (.ok data) :: r.trace }

/-- `agent.OnClose`. -/
def agent.OnClose {σ : Type} (w : World σ) (a : agent) (s : σ) : Ran σ :=
  match a.gate.AgentChanRPC with
  | some rpc =>
    match w.Call0 rpc "CloseAgent" [a] s with
    | (some err, s1) =>
      { state := s1
        trace := [Event.Call0 rpc "CloseAgent" [a] (some err),
                  Event.logError "chanrpc error: %v" [.err err]]
        returned := true }
    | (none, s1) =>
      { state := s1, trace := [Event.Call0 rpc "CloseAgent" [a] none], returned := true }
  | none => { state := s, trace := [], returned := true }

/-- `agent.WriteMsg`. -/
def agent.WriteMsg {σ : Type} (w : World σ) (a : agent) (msg : Any) (s : σ) : Ran σ :=
  match a.gate.Processor with
  | some p =>
    match w.Marshal p msg s with
    | (.error err, s1) =>
      { state := s1
        trace := [Event.Marshal p msg (.error err),
                  Event.logError "marshal message %v error: %v" [.typeOf msg, .err err]]
        returned := true }
    | (.ok data, s1) =>
      match w.WriteMsg a.conn data s1 with
      | (some err, s2) =>
        { state := s2
          trace := [Event.Marshal p msg (.ok data), Event.WriteMsg a.conn data (some err),
                    Event.logError "write message %v error: %v" [.typeOf msg, .err err]]
          returned := true }
      | (none, s2) =>
        { state := s2
          trace := [Event.Marshal p msg (.ok data), Event.WriteMsg a.conn data none]
          returned := true }
  | none => { state := s, trace := [], returned := true }

/-- `agent.Close`. -/
def agent.Close {σ : Type} (a : agent) (s : σ) : Ran σ :=
  { state := s, trace := [Event.Close a.conn], returned := true }

/-- `agent.Destroy`. -/
def agent.Destroy {σ : Type} (a : agent) (s : σ) : Ran σ :=
  { state := s, trace := [Event.Destroy a.conn], returned := true }

/-- `agent.UserData`. -/
def agent.UserData (a : agent) : Option Any :=
  a.userData

/-- `agent.SetUserData`. -/
def agent.SetUserData (a : agent) (data : Option Any) : agent :=
  { a with userData := data }

/-! ## Observations on traces -/

/-- The servers on which `Start` was called, in call order. -/
def started : List Op → List Server
  | [] => []
  | .Start s :: ops => s :: started ops
  | _ :: ops => started ops

/-- The servers on which `Close` was called, in call order. -/
def closed : List Op → List Server
  | [] => []
  | .Close s :: ops => s :: closed ops
  | _ :: ops => closed ops

/-- The servers held by the local variables of `Gate.Run` when it ends: the WebSocket
servers in slice order, then the TCP server. -/
def RunResult.servers (r : RunResult) : List Server :=
  r.wsServers.map Server.ws ++ r.tcpServer.toList.map Server.tcp

/-- Whether an event is a call on the connection. -/
def Event.onConn : Event → Bool
  | .ReadMsg _ _ => true
  | .WriteMsg _ _ _ => true
  | .Close _ => true
  | .Destroy _ => true
  | _ => false

/-- Whether an event is a call on the Processor. -/
def Event.onProcessor : Event → Bool
  | .Unmarshal _ _ _ => true
  | .Route _ _ _ _ => true
  | .Marshal _ _ _ => true
  | _ => false

/-- The number of `ReadMsg` calls in a trace. -/
def readCalls : List Event → Nat
  | [] => 0
  | .ReadMsg _ _ :: es => readCalls es + 1
  | _ :: es => readCalls es

/-- The arguments of the `Route` calls in a trace, in call order. -/
def routed : List Event → List (Any × agent)
  | [] => []
  | .Route _ msg a _ :: es => (msg, a) :: routed es
  | _ :: es => routed es

/-- The calls of a run of loop iterations in which every step succeeded: for each frame
and the message it decoded to, the read, the decode and the route, all without error. -/
def completed (a : agent) (p : network.Processor) : List (Frame × Any) → List Event
  | [] => []
  | (data, msg) :: rest =>
    Event.ReadMsg a.conn (.ok data) :: Event.Unmarshal p data (.ok msg) ::
      Event.Route p msg a none :: completed a p rest

/-- The world answers every step of the iterations `done` without error: starting in
state `s`, for each frame and message in turn `Unmarshal` of the frame returns that
message and `Route` of the message with the agent returns no error, each call made in
the state the previous one left; `s'` is the state left by the last. -/
def succeeds {σ : Type} (w : World σ) (a : agent) (p : network.Processor) :
    List (Frame × Any) → σ → σ → Prop
  | [], s, s' => s' = s
  | (data, msg) :: rest, s, s' =>
    ∃ s1 s2, w.Unmarshal p data s = (.ok msg, s1) ∧ w.Route p msg a s1 = (none, s2) ∧
      succeeds w a p rest s2 s'

/-! ## Concrete configurations -/

/-- A gate with only the TCP address set. -/
def tcpOnlyGate : Gate :=
  { MaxConnNum := 20000, PendingWriteNum := 2000, MaxMsgLen := 4096,
    Processor := some ⟨1⟩, AgentChanRPC := some ⟨7⟩,
    WSAddr := "", WSPort := "", WSSPort := "", HTTPTimeout := 10,
    CertFile := "", KeyFile := "",
    TCPAddr := "127.0.0.1:3563", LenMsgLen := 2, LittleEndian := false }

/-- A gate with every address set and both TLS files present. -/
def fullGate : Gate :=
  { MaxConnNum := 20000, PendingWriteNum := 2000, MaxMsgLen := 4096,
    Processor := some ⟨1⟩, AgentChanRPC := some ⟨7⟩,
    WSAddr := "0.0.0.0", WSPort := "80", WSSPort := "443", HTTPTimeout := 10,
    CertFile := "server.crt", KeyFile := "server.key",
    TCPAddr := "127.0.0.1:3563", LenMsgLen := 2, LittleEndian := false }

/-- An agent of `tcpOnlyGate` (Processor and AgentChanRPC present). -/
def tcpAgent : agent :=
  { conn := .tcp ⟨3⟩, gate := tcpOnlyGate, userData := none }

/-- An agent of a gate with neither Processor nor AgentChanRPC. -/
def bareAgent : agent :=
  { conn := .ws ⟨4⟩,
    gate := { tcpOnlyGate with Processor := none, AgentChanRPC := none },
    userData := none }

/-- A collaborator world whose state counts the calls answered.  `Unmarshal` rejects
the empty frame and otherwise decodes a frame to its first byte, `Route` rejects message
`9`, `Marshal` rejects message `0` and otherwise yields one frame, the connection rejects
writes of more than one byte per frame list, and `Call0` fails on every second call. -/
def countingWorld : World Nat :=
  { WriteMsg := fun _ data n =>
      (if data.length ≤ 1 then none else some ⟨"short write"⟩, n + 1)
    Unmarshal := fun _ data n =>
      (match data with
       | [] => .error ⟨"empty frame"⟩
       | b :: _ => .ok ⟨b⟩, n + 1)
    Route := fun _ msg _ n =>
      (if msg.code = 9 then some ⟨"no handler"⟩ else none, n + 1)
    Marshal := fun _ msg n =>
      (if msg.code = 0 then .error ⟨"unregistered"⟩ else .ok [[msg.code]], n + 1)
    Call0 := fun _ _ _ n =>
      (if n % 2 = 1 then some ⟨"server closed"⟩ else none, n + 1) }

/-- Read results: a frame, an empty frame (which `countingWorld` fails to decode), a
further frame, then a read error. -/
def undecodableReads : List (Except Error Frame) :=
  [.ok [5, 1], .ok [], .ok [6], .error ⟨"EOF"⟩]

/-- A gate with the secure WebSocket port set and no key file. -/
def keylessGate : Gate :=
  { fullGate with KeyFile := "" }

/-! ## Construction lemmas -/

theorem Gate.newWSServer_plain (gate : Gate) (port : String) :
    ∃ s, gate.newWSServer port false = .ok s ∧
      s.Addr = gate.WSAddr ++ ":" ++ port ∧ s.MaxConnNum = gate.MaxConnNum ∧
      s.PendingWriteNum = gate.PendingWriteNum ∧ s.MaxMsgLen = gate.MaxMsgLen ∧
      s.HTTPTimeout = gate.HTTPTimeout ∧ s.CertFile = "" ∧ s.KeyFile = "" ∧
      ∀ conn, s.NewAgent conn =
        (({ conn := .ws conn, gate := gate, userData := none } : agent),
          match gate.AgentChanRPC with
          | some rpc => [Event.Go rpc "NewAgent"
              [({ conn := .ws conn, gate := gate, userData := none } : agent)]]
          | none => []) := by
  refine ⟨_, rfl, rfl, rfl, rfl, rfl, rfl, rfl, rfl, ?_⟩
  intro conn
  cases h : gate.AgentChanRPC <;> simp [h]

theorem Gate.newWSServer_secure (gate : Gate) (port : String)
    (hc : gate.CertFile ≠ "") (hk : gate.KeyFile ≠ "") :
    ∃ s, gate.newWSServer port true = .ok s ∧
      s.Addr = gate.WSAddr ++ ":" ++ port ∧ s.MaxConnNum = gate.MaxConnNum ∧
      s.PendingWriteNum = gate.PendingWriteNum ∧ s.MaxMsgLen = gate.MaxMsgLen ∧
      s.HTTPTimeout = gate.HTTPTimeout ∧ s.CertFile = gate.CertFile ∧
      s.KeyFile = gate.KeyFile ∧
      ∀ conn, s.NewAgent conn =
        (({ conn := .ws conn, gate := gate, userData := none } : agent),
          match gate.AgentChanRPC with
          | some rpc => [Event.Go rpc "NewAgent"
              [({ conn := .ws conn, gate := gate, userData := none } : agent)]]
          | none => []) := by
  have h : ¬ (gate.CertFile = "" ∨ gate.KeyFile = "") := by
    rintro (h | h)
    · exact hc h
    · exact hk h
  simp only [Gate.newWSServer, if_true, if_neg h]
  refine ⟨_, rfl, rfl, rfl, rfl, rfl, rfl, rfl, rfl, ?_⟩
  intro conn
  cases h : gate.AgentChanRPC <;> simp [h]

theorem Gate.newWSServer_panic (gate : Gate) (port : String)
    (h : gate.CertFile = "" ∨ gate.KeyFile = "") :
    gate.newWSServer port true = .error "lack of SSL cert or key file" := by
  simp only [Gate.newWSServer, if_true, if_pos h]

theorem Gate.Run_built (gate : Gate) (closeSig : Option Bool)
    (h : ¬ (gate.WSAddr ≠ "" ∧ gate.WSSPort ≠ "" ∧
      (gate.CertFile = "" ∨ gate.KeyFile = ""))) :
    ∃ (plain secure : network.WSServer) (tcp : network.TCPServer),
      gate.newWSServer gate.WSPort false = .ok plain ∧
      (gate.WSAddr ≠ "" ∧ gate.WSSPort ≠ "" →
        gate.newWSServer gate.WSSPort true = .ok secure) ∧
      (tcp.Addr = gate.TCPAddr ∧ tcp.MaxConnNum = gate.MaxConnNum ∧
        tcp.PendingWriteNum = gate.PendingWriteNum ∧ tcp.LenMsgLen = gate.LenMsgLen ∧
        tcp.MaxMsgLen = gate.MaxMsgLen ∧ tcp.LittleEndian = gate.LittleEndian ∧
        ∀ conn, tcp.NewAgent conn =
          (({ conn := .tcp conn, gate := gate, userData := none } : agent),
            match gate.AgentChanRPC with
            | some rpc => [Event.Go rpc "NewAgent"
                [({ conn := .tcp conn, gate := gate, userData := none } : agent)]]
            | none => [])) ∧
      (gate.Run closeSig).wsServers =
        (if gate.WSAddr ≠ "" ∧ gate.WSPort ≠ "" then [plain] else []) ++
        (if gate.WSAddr ≠ "" ∧ gate.WSSPort ≠ "" then [secure] else []) ∧
      (gate.Run closeSig).tcpServer = (if gate.TCPAddr ≠ "" then some tcp else none) ∧
      (gate.Run closeSig).trace =
        (gate.Run closeSig).servers.map Op.Start ++ [Op.Recv] ++
          (if closeSig.isSome then (gate.Run closeSig).servers.map Op.Close else []) ∧
      (gate.Run closeSig).outcome =
        (if closeSig.isSome then Outcome.returned else Outcome.blocked) := by
  obtain ⟨plain, hp, -⟩ := gate.newWSServer_plain gate.WSPort
  have hs : ∃ secure, gate.WSAddr ≠ "" ∧ gate.WSSPort ≠ "" →
      gate.newWSServer gate.WSSPort true = .ok secure := by
    by_cases h2 : gate.WSAddr ≠ "" ∧ gate.WSSPort ≠ ""
    · have hc : gate.CertFile ≠ "" := fun e => h ⟨h2.1, h2.2, Or.inl e⟩
      have hk : gate.KeyFile ≠ "" := fun e => h ⟨h2.1, h2.2, Or.inr e⟩
      obtain ⟨s, hs, -⟩ := gate.newWSServer_secure gate.WSSPort hc hk
      exact ⟨s, fun _ => hs⟩
    · exact ⟨plain, fun h2' => absurd h2' h2⟩
  obtain ⟨secure, hs⟩ := hs
  refine ⟨plain, secure,
    { Addr := gate.TCPAddr
      MaxConnNum := gate.MaxConnNum
      PendingWriteNum := gate.PendingWriteNum
      LenMsgLen := gate.LenMsgLen
      MaxMsgLen := gate.MaxMsgLen
      LittleEndian := gate.LittleEndian
      NewAgent := fun conn =>
        let a : agent := { conn := .tcp conn, gate := gate, userData := none }
        match gate.AgentChanRPC with
        | some rpc => (a, [Event.Go rpc "NewAgent" [a]])
        | none => (a, []) }, hp, hs, ⟨rfl, rfl, rfl, rfl, rfl, rfl, ?_⟩, ?_⟩
  · intro conn
    cases h : gate.AgentChanRPC <;> simp [h]
  · by_cases h1 : gate.WSAddr = "" <;> by_cases h2 : gate.WSPort = "" <;>
      by_cases h3 : gate.WSSPort = "" <;> by_cases h4 : gate.TCPAddr = "" <;>
      cases closeSig <;>
      simp [Gate.Run, RunResult.servers, hp, hs, h1, h2, h3, h4, Except.map]

theorem Gate.Run_panics (gate : Gate) (closeSig : Option Bool)
    (h : gate.WSAddr ≠ "" ∧ gate.WSSPort ≠ "" ∧ (gate.CertFile = "" ∨ gate.KeyFile = "")) :
    (gate.Run closeSig).outcome = .panicked "lack of SSL cert or key file" ∧
      (gate.Run closeSig).trace = [] ∧ (gate.Run closeSig).tcpServer = none ∧
      ∃ plain, gate.newWSServer gate.WSPort false = .ok plain ∧
        (gate.Run closeSig).wsServers = (if gate.WSPort ≠ "" then [plain] else []) := by
  obtain ⟨plain, hp, -⟩ := gate.newWSServer_plain gate.WSPort
  have hs := gate.newWSServer_panic gate.WSSPort h.2.2
  obtain ⟨h1, h3, -⟩ := h
  refine ⟨?_, ?_, ?_, plain, hp, ?_⟩ <;>
    by_cases h2 : gate.WSPort = "" <;>
    simp [Gate.Run, hp, hs, h1, h2, h3, Except.map]

theorem Gate.Run_panicked_iff (gate : Gate) (closeSig : Option Bool) :
    (∃ v, (gate.Run closeSig).outcome = .panicked v) ↔
      (gate.WSAddr ≠ "" ∧ gate.WSSPort ≠ "" ∧ (gate.CertFile = "" ∨ gate.KeyFile = "")) := by
  constructor
  · rintro ⟨v, hv⟩
    by_contra hn
    obtain ⟨_, _, _, _, _, _, _, _, _, ho⟩ := gate.Run_built closeSig hn
    rw [ho] at hv
    cases closeSig <;> simp at hv
  · intro h
    exact ⟨_, (gate.Run_panics closeSig h).1⟩

theorem Gate.Run_not_panicked (gate : Gate) (closeSig : Option Bool)
    (h : ∀ v, (gate.Run closeSig).outcome ≠ .panicked v) :
    ¬ (gate.WSAddr ≠ "" ∧ gate.WSSPort ≠ "" ∧ (gate.CertFile = "" ∨ gate.KeyFile = "")) :=
  fun hc => h _ (gate.Run_panics closeSig hc).1

theorem started_map_Start (l : List Server) : started (l.map Op.Start) = l := by
  induction l with
  | nil => rfl
  | cons x xs ih => simp [started, ih]

theorem started_map_Close (l : List Server) : started (l.map Op.Close) = [] := by
  induction l with
  | nil => rfl
  | cons x xs ih => simp [started, ih]

theorem closed_map_Start (l : List Server) : closed (l.map Op.Start) = [] := by
  induction l with
  | nil => rfl
  | cons x xs ih => simp [closed, ih]

theorem closed_map_Close (l : List Server) : closed (l.map Op.Close) = l := by
  induction l with
  | nil => rfl
  | cons x xs ih => simp [closed, ih]

theorem started_append (l₁ l₂ : List Op) : started (l₁ ++ l₂) = started l₁ ++ started l₂ := by
  induction l₁ with
  | nil => rfl
  | cons x xs ih => cases x <;> simp [started, ih]

theorem closed_append (l₁ l₂ : List Op) : closed (l₁ ++ l₂) = closed l₁ ++ closed l₂ := by
  induction l₁ with
  | nil => rfl
  | cons x xs ih => cases x <;> simp [closed, ih]

theorem Gate.Run_started (gate : Gate) (closeSig : Option Bool)
    (h : ¬ (gate.WSAddr ≠ "" ∧ gate.WSSPort ≠ "" ∧
      (gate.CertFile = "" ∨ gate.KeyFile = ""))) :
    started (gate.Run closeSig).trace = (gate.Run closeSig).servers := by
  obtain ⟨_, _, _, _, _, _, _, _, ht, _⟩ := gate.Run_built closeSig h
  rw [ht]
  cases closeSig <;>
    simp [started_append, started_map_Start, started_map_Close, started]

theorem Gate.Run_closed (gate : Gate) (closeSig : Option Bool)
    (h : ¬ (gate.WSAddr ≠ "" ∧ gate.WSSPort ≠ "" ∧
      (gate.CertFile = "" ∨ gate.KeyFile = ""))) :
    closed (gate.Run closeSig).trace =
      (if closeSig.isSome then (gate.Run closeSig).servers else []) := by
  obtain ⟨_, _, _, _, _, _, _, _, ht, _⟩ := gate.Run_built closeSig h
  rw [ht]
  cases closeSig <;>
    simp [closed_append, closed_map_Start, closed_map_Close, closed]

theorem Gate.Run_servers (gate : Gate) (closeSig : Option Bool)
    (h : ¬ (gate.WSAddr ≠ "" ∧ gate.WSSPort ≠ "" ∧
      (gate.CertFile = "" ∨ gate.KeyFile = ""))) :
    ∃ (plain secure : network.WSServer) (tcp : network.TCPServer),
      (gate.WSAddr ≠ "" ∧ gate.WSPort ≠ "" →
        gate.newWSServer gate.WSPort false = .ok plain) ∧
      (gate.WSAddr ≠ "" ∧ gate.WSSPort ≠ "" →
        gate.newWSServer gate.WSSPort true = .ok secure) ∧
      (gate.TCPAddr ≠ "" → tcp.Addr = gate.TCPAddr) ∧
      (gate.Run closeSig).servers =
        (if gate.WSAddr ≠ "" ∧ gate.WSPort ≠ "" then [Server.ws plain] else []) ++
        (if gate.WSAddr ≠ "" ∧ gate.WSSPort ≠ "" then [Server.ws secure] else []) ++
        (if gate.TCPAddr ≠ "" then [Server.tcp tcp] else []) := by
  obtain ⟨plain, secure, tcp, hp, hs, ht, hw, htc, -, -⟩ := gate.Run_built closeSig h
  refine ⟨plain, secure, tcp, fun _ => hp, hs, fun _ => ht.1, ?_⟩
  rw [RunResult.servers, hw, htc]
  by_cases h1 : gate.WSAddr = "" <;> by_cases h2 : gate.WSPort = "" <;>
    by_cases h3 : gate.WSSPort = "" <;> by_cases h4 : gate.TCPAddr = "" <;>
    simp [h1, h2, h3, h4]

/-! ## Gate.Run: which servers are started -/

/-- C1: on every configuration on which `Gate.Run` does not panic, the servers on which
`Start` is called are, in order, the plain WebSocket server iff `WSAddr` and `WSPort` are
both non-empty, the secure WebSocket server iff `WSAddr` and `WSSPort` are both non-empty,
and the TCP server iff `TCPAddr` is non-empty.  In particular with `WSAddr` empty and
`TCPAddr` set exactly the TCP server is started, and with both empty nothing is. -/
theorem Gate.Run_starts_by_address (gate : Gate) (closeSig : Option Bool)
    (h : ∀ v, (gate.Run closeSig).outcome ≠ .panicked v) :
    ∃ (plain secure : network.WSServer) (tcp : network.TCPServer),
      (gate.WSAddr ≠ "" ∧ gate.WSPort ≠ "" →
        gate.newWSServer gate.WSPort false = .ok plain) ∧
      (gate.WSAddr ≠ "" ∧ gate.WSSPort ≠ "" →
        gate.newWSServer gate.WSSPort true = .ok secure) ∧
      (gate.TCPAddr ≠ "" → tcp.Addr = gate.TCPAddr) ∧
      started (gate.Run closeSig).trace =
        (if gate.WSAddr ≠ "" ∧ gate.WSPort ≠ "" then [Server.ws plain] else []) ++
        (if gate.WSAddr ≠ "" ∧ gate.WSSPort ≠ "" then [Server.ws secure] else []) ++
        (if gate.TCPAddr ≠ "" then [Server.tcp tcp] else []) ∧
      (gate.WSAddr = "" → gate.TCPAddr ≠ "" →
        started (gate.Run closeSig).trace = [Server.tcp tcp]) ∧
      (gate.WSAddr = "" → gate.TCPAddr = "" → started (gate.Run closeSig).trace = []) := by
  have hn := gate.Run_not_panicked closeSig h
  obtain ⟨plain, secure, tcp, hp, hs, ht, hl⟩ := gate.Run_servers closeSig hn
  rw [← gate.Run_started closeSig hn] at hl
  refine ⟨plain, secure, tcp, hp, hs, ht, hl, ?_, ?_⟩
  · intro h1 h4
    rw [hl]
    simp [h1, h4]
  · intro h1 h4
    rw [hl]
    simp [h1, h4]

/-- Witness for C1 on a gate with only the TCP address set. -/
theorem Gate.Run_starts_by_address_witness :
    (∀ v, (tcpOnlyGate.Run none).outcome ≠ .panicked v) ∧
    ∃ (plain secure : network.WSServer) (tcp : network.TCPServer),
      (tcpOnlyGate.WSAddr ≠ "" ∧ tcpOnlyGate.WSPort ≠ "" →
        tcpOnlyGate.newWSServer tcpOnlyGate.WSPort false = .ok plain) ∧
      (tcpOnlyGate.WSAddr ≠ "" ∧ tcpOnlyGate.WSSPort ≠ "" →
        tcpOnlyGate.newWSServer tcpOnlyGate.WSSPort true = .ok secure) ∧
      (tcpOnlyGate.TCPAddr ≠ "" → tcp.Addr = tcpOnlyGate.TCPAddr) ∧
      started (tcpOnlyGate.Run none).trace =
        (if tcpOnlyGate.WSAddr ≠ "" ∧ tcpOnlyGate.WSPort ≠ "" then [Server.ws plain]
          else []) ++
        (if tcpOnlyGate.WSAddr ≠ "" ∧ tcpOnlyGate.WSSPort ≠ "" then [Server.ws secure]
          else []) ++
        (if tcpOnlyGate.TCPAddr ≠ "" then [Server.tcp tcp] else []) ∧
      (tcpOnlyGate.WSAddr = "" → tcpOnlyGate.TCPAddr ≠ "" →
        started (tcpOnlyGate.Run none).trace = [Server.tcp tcp]) ∧
      (tcpOnlyGate.WSAddr = "" → tcpOnlyGate.TCPAddr = "" →
        started (tcpOnlyGate.Run none).trace = []) :=
  have hnp : ∀ v, (tcpOnlyGate.Run none).outcome ≠ .panicked v := fun v hv =>
    Outcome.noConfusion
      ((by decide : (tcpOnlyGate.Run none).outcome = Outcome.blocked).symm.trans hv)
  ⟨hnp, Gate.Run_starts_by_address tcpOnlyGate none hnp⟩

/-- C2: `Gate.Run` panics exactly on the configurations in which `WSAddr` and `WSSPort`
are both non-empty and `CertFile` or `KeyFile` is empty; on those it panics with no
operation performed at all: no `Start` on any server, no receive on the shutdown
channel, no `Close`. -/
theorem Gate.Run_panics_before_start (gate : Gate) (closeSig : Option Bool) :
    ((gate.WSAddr ≠ "" ∧ gate.WSSPort ≠ "" ∧ (gate.CertFile = "" ∨ gate.KeyFile = "")) ↔
      ((gate.Run closeSig).outcome = .panicked "lack of SSL cert or key file" ∧
        (gate.Run closeSig).trace = [])) ∧
    ((∃ v, (gate.Run closeSig).outcome = .panicked v) ↔
      (gate.WSAddr ≠ "" ∧ gate.WSSPort ≠ "" ∧
        (gate.CertFile = "" ∨ gate.KeyFile = ""))) := by
  refine ⟨⟨fun hc => ?_, fun hr => ?_⟩, gate.Run_panicked_iff closeSig⟩
  · obtain ⟨ho, ht, -⟩ := gate.Run_panics closeSig hc
    exact ⟨ho, ht⟩
  · exact (gate.Run_panicked_iff closeSig).1 ⟨_, hr.1⟩

/-! ## Gate.Run: order of operations -/

/-- C6: on every configuration on which `Gate.Run` does not panic, the operations are
`Start` on every constructed server (plain WebSocket, secure WebSocket, TCP, in that
order), then one receive on the shutdown channel, then, once a value is received,
`Close` on the same servers in the same order; while no value is received no `Close`
happens.  The closed servers are exactly the started ones, each once. -/
theorem Gate.Run_start_recv_close (gate : Gate) (closeSig : Option Bool)
    (h : ∀ v, (gate.Run closeSig).outcome ≠ .panicked v) :
    ∃ (plain secure : network.WSServer) (tcp : network.TCPServer) (servers : List Server),
      (gate.WSAddr ≠ "" ∧ gate.WSPort ≠ "" →
        gate.newWSServer gate.WSPort false = .ok plain) ∧
      (gate.WSAddr ≠ "" ∧ gate.WSSPort ≠ "" →
        gate.newWSServer gate.WSSPort true = .ok secure) ∧
      (gate.TCPAddr ≠ "" → tcp.Addr = gate.TCPAddr) ∧
      servers =
        (if gate.WSAddr ≠ "" ∧ gate.WSPort ≠ "" then [Server.ws plain] else []) ++
        (if gate.WSAddr ≠ "" ∧ gate.WSSPort ≠ "" then [Server.ws secure] else []) ++
        (if gate.TCPAddr ≠ "" then [Server.tcp tcp] else []) ∧
      (gate.Run closeSig).trace =
        servers.map Op.Start ++ [Op.Recv] ++
          (if closeSig.isSome then servers.map Op.Close else []) ∧
      (gate.Run closeSig).outcome =
        (if closeSig.isSome then Outcome.returned else Outcome.blocked) ∧
      started (gate.Run closeSig).trace = servers ∧
      closed (gate.Run closeSig).trace = (if closeSig.isSome then servers else []) := by
  have hn := gate.Run_not_panicked closeSig h
  obtain ⟨plain, secure, tcp, hp, hs, ht, hl⟩ := gate.Run_servers closeSig hn
  obtain ⟨_, _, _, _, _, _, _, _, htr, ho⟩ := gate.Run_built closeSig hn
  exact ⟨plain, secure, tcp, (gate.Run closeSig).servers, hp, hs, ht, hl, htr, ho,
    gate.Run_started closeSig hn, gate.Run_closed closeSig hn⟩

/-- Witness for C6 on a gate with all three servers, with the shutdown value delivered. -/
theorem Gate.Run_start_recv_close_witness :
    (∀ v, (fullGate.Run (some true)).outcome ≠ .panicked v) ∧
    ∃ (plain secure : network.WSServer) (tcp : network.TCPServer) (servers : List Server),
      (fullGate.WSAddr ≠ "" ∧ fullGate.WSPort ≠ "" →
        fullGate.newWSServer fullGate.WSPort false = .ok plain) ∧
      (fullGate.WSAddr ≠ "" ∧ fullGate.WSSPort ≠ "" →
        fullGate.newWSServer fullGate.WSSPort true = .ok secure) ∧
      (fullGate.TCPAddr ≠ "" → tcp.Addr = fullGate.TCPAddr) ∧
      servers =
        (if fullGate.WSAddr ≠ "" ∧ fullGate.WSPort ≠ "" then [Server.ws plain] else []) ++
        (if fullGate.WSAddr ≠ "" ∧ fullGate.WSSPort ≠ "" then [Server.ws secure] else []) ++
        (if fullGate.TCPAddr ≠ "" then [Server.tcp tcp] else []) ∧
      (fullGate.Run (some true)).trace =
        servers.map Op.Start ++ [Op.Recv] ++ servers.map Op.Close ∧
      (fullGate.Run (some true)).outcome = Outcome.returned ∧
      started (fullGate.Run (some true)).trace = servers ∧
      closed (fullGate.Run (some true)).trace = servers :=
  have hnp : ∀ v, (fullGate.Run (some true)).outcome ≠ .panicked v := fun v hv =>
    Outcome.noConfusion
      ((by decide : (fullGate.Run (some true)).outcome = Outcome.returned).symm.trans hv)
  ⟨hnp, Gate.Run_start_recv_close fullGate (some true) hnp⟩

/-! ## Gate.Run: how many servers -/

/-- C9, as stated, fails: with every address set and both TLS files present `Gate.Run`
constructs three servers, so the number is not zero, one or two. -/
theorem Gate.Run_constructs_three :
    (fullGate.Run none).servers.length = 3 ∧
      ¬ ((fullGate.Run none).servers.length = 0 ∨ (fullGate.Run none).servers.length = 1 ∨
        (fullGate.Run none).servers.length = 2) := by
  decide

/-- C9, amended: the number of servers `Gate.Run` constructs is zero, one, two or
three. -/
theorem Gate.Run_constructs_at_most_three (gate : Gate) (closeSig : Option Bool) :
    (gate.Run closeSig).servers.length = 0 ∨ (gate.Run closeSig).servers.length = 1 ∨
      (gate.Run closeSig).servers.length = 2 ∨ (gate.Run closeSig).servers.length = 3 := by
  by_cases hc : gate.WSAddr ≠ "" ∧ gate.WSSPort ≠ "" ∧
      (gate.CertFile = "" ∨ gate.KeyFile = "")
  · obtain ⟨-, -, ht, plain, -, hw⟩ := gate.Run_panics closeSig hc
    rw [RunResult.servers, hw, ht]
    by_cases h2 : gate.WSPort = "" <;> simp [h2]
  · obtain ⟨plain, secure, tcp, -, -, -, hl⟩ := gate.Run_servers closeSig hc
    rw [hl]
    by_cases h1 : gate.WSAddr = "" <;> by_cases h2 : gate.WSPort = "" <;>
      by_cases h3 : gate.WSSPort = "" <;> by_cases h4 : gate.TCPAddr = "" <;>
      simp [h1, h2, h3, h4]

/-! ## Gate.Run: what the servers carry -/

/-- C10: on every configuration, panicking runs included, the servers `Gate.Run`
constructs carry the gate's configuration unchanged.  Its WebSocket servers are the
plain one (when `WSAddr` and `WSPort` are set) followed by the secure one (when `WSAddr`,
`WSSPort`, `CertFile` and `KeyFile` are set); its TCP server exists when `TCPAddr` is set
and the run does not panic.  The plain WebSocket server has
`Addr = WSAddr ++ ":" ++ WSPort`, the gate's limits and HTTP timeout, and empty `CertFile`
and `KeyFile`; the secure one has `Addr = WSAddr ++ ":" ++ WSSPort`, the same limits and
timeout, and the gate's `CertFile` and `KeyFile`; the TCP server has the gate's `TCPAddr`,
limits, `LenMsgLen` and `LittleEndian`. -/
theorem Gate.Run_servers_carry_config (gate : Gate) (closeSig : Option Bool) :
    ∃ (plain secure : network.WSServer) (tcp : network.TCPServer),
      (gate.Run closeSig).wsServers =
        (if gate.WSAddr ≠ "" ∧ gate.WSPort ≠ "" then [plain] else []) ++
        (if gate.WSAddr ≠ "" ∧ gate.WSSPort ≠ "" ∧ gate.CertFile ≠ "" ∧ gate.KeyFile ≠ ""
          then [secure] else []) ∧
      (gate.Run closeSig).tcpServer =
        (if gate.TCPAddr ≠ "" ∧ ¬ (gate.WSAddr ≠ "" ∧ gate.WSSPort ≠ "" ∧
            (gate.CertFile = "" ∨ gate.KeyFile = ""))
          then some tcp else none) ∧
      (plain.Addr = gate.WSAddr ++ ":" ++ gate.WSPort ∧
        plain.MaxConnNum = gate.MaxConnNum ∧
        plain.PendingWriteNum = gate.PendingWriteNum ∧
        plain.MaxMsgLen = gate.MaxMsgLen ∧
        plain.HTTPTimeout = gate.HTTPTimeout ∧
        plain.CertFile = "" ∧ plain.KeyFile = "") ∧
      (secure.Addr = gate.WSAddr ++ ":" ++ gate.WSSPort ∧
        secure.MaxConnNum = gate.MaxConnNum ∧
        secure.PendingWriteNum = gate.PendingWriteNum ∧
        secure.MaxMsgLen = gate.MaxMsgLen ∧
        secure.HTTPTimeout = gate.HTTPTimeout ∧
        secure.CertFile = gate.CertFile ∧ secure.KeyFile = gate.KeyFile) ∧
      (tcp.Addr = gate.TCPAddr ∧
        tcp.MaxConnNum = gate.MaxConnNum ∧
        tcp.PendingWriteNum = gate.PendingWriteNum ∧
        tcp.LenMsgLen = gate.LenMsgLen ∧
        tcp.MaxMsgLen = gate.MaxMsgLen ∧
        tcp.LittleEndian = gate.LittleEndian) := by
  obtain ⟨p, hp, a1, a2, a3, a4, a5, a6, a7, -⟩ := gate.newWSServer_plain gate.WSPort
  by_cases hc : gate.WSAddr ≠ "" ∧ gate.WSSPort ≠ "" ∧
      (gate.CertFile = "" ∨ gate.KeyFile = "")
  · obtain ⟨-, -, ht, plain, hp', hw⟩ := gate.Run_panics closeSig hc
    obtain rfl : p = plain := Except.ok.inj (hp.symm.trans hp')
    refine ⟨p,
      { p with Addr := gate.WSAddr ++ ":" ++ gate.WSSPort, CertFile := gate.CertFile,
               KeyFile := gate.KeyFile },
      { Addr := gate.TCPAddr
        MaxConnNum := gate.MaxConnNum
        PendingWriteNum := gate.PendingWriteNum
        LenMsgLen := gate.LenMsgLen
        MaxMsgLen := gate.MaxMsgLen
        LittleEndian := gate.LittleEndian
        NewAgent := fun conn => ({ conn := .tcp conn, gate := gate, userData := none }, []) },
      ?_, ?_, ⟨a1, a2, a3, a4, a5, a6, a7⟩, ⟨rfl, a2, a3, a4, a5, rfl, rfl⟩,
      ⟨rfl, rfl, rfl, rfl, rfl, rfl⟩⟩
    · have e2 : ¬ (gate.WSAddr ≠ "" ∧ gate.WSSPort ≠ "" ∧ gate.CertFile ≠ "" ∧
          gate.KeyFile ≠ "") := fun h => hc.2.2.elim h.2.2.1 h.2.2.2
      rw [hw, if_neg e2, List.append_nil]
      exact if_congr ⟨fun h => ⟨hc.1, h⟩, fun h => h.2⟩ rfl rfl
    · have e3 : ¬ (gate.TCPAddr ≠ "" ∧ ¬ (gate.WSAddr ≠ "" ∧ gate.WSSPort ≠ "" ∧
          (gate.CertFile = "" ∨ gate.KeyFile = ""))) := fun h => h.2 hc
      rw [ht, if_neg e3]
  · obtain ⟨plain, secure, tcp, hp', hs, ht, hw, htc, -, -⟩ := gate.Run_built closeSig hc
    obtain rfl : p = plain := Except.ok.inj (hp.symm.trans hp')
    by_cases h2 : gate.WSAddr ≠ "" ∧ gate.WSSPort ≠ ""
    · have hcf : gate.CertFile ≠ "" := fun e => hc ⟨h2.1, h2.2, Or.inl e⟩
      have hkf : gate.KeyFile ≠ "" := fun e => hc ⟨h2.1, h2.2, Or.inr e⟩
      obtain ⟨q, hq, b1, b2, b3, b4, b5, b6, b7, -⟩ :=
        gate.newWSServer_secure gate.WSSPort hcf hkf
      obtain rfl : q = secure := Except.ok.inj (hq.symm.trans (hs h2))
      refine ⟨p, q, tcp, ?_, ?_, ⟨a1, a2, a3, a4, a5, a6, a7⟩,
        ⟨b1, b2, b3, b4, b5, b6, b7⟩,
        ⟨ht.1, ht.2.1, ht.2.2.1, ht.2.2.2.1, ht.2.2.2.2.1, ht.2.2.2.2.2.1⟩⟩
      · rw [hw]
        congr 1
        exact if_congr ⟨fun h => ⟨h.1, h.2, hcf, hkf⟩, fun h => ⟨h.1, h.2.1⟩⟩ rfl rfl
      · rw [htc]
        exact if_congr ⟨fun h => ⟨h, hc⟩, fun h => h.1⟩ rfl rfl
    · refine ⟨p,
        { p with Addr := gate.WSAddr ++ ":" ++ gate.WSSPort, CertFile := gate.CertFile,
                 KeyFile := gate.KeyFile },
        tcp, ?_, ?_, ⟨a1, a2, a3, a4, a5, a6, a7⟩, ⟨rfl, a2, a3, a4, a5, rfl, rfl⟩,
        ⟨ht.1, ht.2.1, ht.2.2.1, ht.2.2.2.1, ht.2.2.2.2.1, ht.2.2.2.2.2.1⟩⟩
      · have e2 : ¬ (gate.WSAddr ≠ "" ∧ gate.WSSPort ≠ "" ∧ gate.CertFile ≠ "" ∧
            gate.KeyFile ≠ "") := fun h => h2 ⟨h.1, h.2.1⟩
        rw [hw, if_neg h2, if_neg e2]
      · rw [htc]
        exact if_congr ⟨fun h => ⟨h, hc⟩, fun h => h.1⟩ rfl rfl

/-- Instances of C10: a gate with all three servers and both TLS files set, and the same
gate without a key file, whose run constructs the plain WebSocket server and panics. -/
theorem Gate.Run_servers_carry_config_witness :
    (∃ (plain secure : network.WSServer) (tcp : network.TCPServer),
      (fullGate.Run none).wsServers = [plain, secure] ∧
      (fullGate.Run none).tcpServer = some tcp ∧
      (plain.Addr = "0.0.0.0:80" ∧
        plain.MaxConnNum = 20000 ∧
        plain.PendingWriteNum = 2000 ∧
        plain.MaxMsgLen = 4096 ∧
        plain.HTTPTimeout = 10 ∧
        plain.CertFile = "" ∧ plain.KeyFile = "") ∧
      (secure.Addr = "0.0.0.0:443" ∧
        secure.MaxConnNum = 20000 ∧
        secure.PendingWriteNum = 2000 ∧
        secure.MaxMsgLen = 4096 ∧
        secure.HTTPTimeout = 10 ∧
        secure.CertFile = "server.crt" ∧ secure.KeyFile = "server.key") ∧
      (tcp.Addr = "127.0.0.1:3563" ∧
        tcp.MaxConnNum = 20000 ∧
        tcp.PendingWriteNum = 2000 ∧
        tcp.LenMsgLen = 2 ∧
        tcp.MaxMsgLen = 4096 ∧
        tcp.LittleEndian = false)) ∧
    (∃ (plain secure : network.WSServer) (tcp : network.TCPServer),
      (keylessGate.Run none).wsServers = [plain] ∧
      (keylessGate.Run none).tcpServer = none ∧
      (plain.Addr = "0.0.0.0:80" ∧
        plain.MaxConnNum = 20000 ∧
        plain.PendingWriteNum = 2000 ∧
        plain.MaxMsgLen = 4096 ∧
        plain.HTTPTimeout = 10 ∧
        plain.CertFile = "" ∧ plain.KeyFile = "") ∧
      (secure.Addr = "0.0.0.0:443" ∧
        secure.MaxConnNum = 20000 ∧
        secure.PendingWriteNum = 2000 ∧
        secure.MaxMsgLen = 4096 ∧
        secure.HTTPTimeout = 10 ∧
        secure.CertFile = "server.crt" ∧ secure.KeyFile = "") ∧
      (tcp.Addr = "127.0.0.1:3563" ∧
        tcp.MaxConnNum = 20000 ∧
        tcp.PendingWriteNum = 2000 ∧
        tcp.LenMsgLen = 2 ∧
        tcp.MaxMsgLen = 4096 ∧
        tcp.LittleEndian = false)) :=
  ⟨Gate.Run_servers_carry_config fullGate none,
    Gate.Run_servers_carry_config keylessGate none⟩


/-! ## Connection factories -/

/-- C7: the connection factory of every server the gate constructs (any server
`newWSServer` returns, the WebSocket servers and the TCP server of `Gate.Run`) returns,
for every connection, the agent with that connection, the constructing gate and an empty
user-data slot; it makes exactly one `Go("NewAgent", agent)` dispatch with that agent
when `AgentChanRPC` is present and no call at all when it is absent.  The TCP and the
WebSocket factories differ only in the kind of connection. -/
theorem Gate.factories_make_agent (gate : Gate) (closeSig : Option Bool) :
    (∀ port isWSS s, gate.newWSServer port isWSS = .ok s → ∀ conn,
      s.NewAgent conn =
        (({ conn := .ws conn, gate := gate, userData := none } : agent),
          match gate.AgentChanRPC with
          | some rpc => [Event.Go rpc "NewAgent"
              [({ conn := .ws conn, gate := gate, userData := none } : agent)]]
          | none => [])) ∧
    (∀ s ∈ (gate.Run closeSig).wsServers, ∀ conn,
      s.NewAgent conn =
        (({ conn := .ws conn, gate := gate, userData := none } : agent),
          match gate.AgentChanRPC with
          | some rpc => [Event.Go rpc "NewAgent"
              [({ conn := .ws conn, gate := gate, userData := none } : agent)]]
          | none => [])) ∧
    (∀ t, (gate.Run closeSig).tcpServer = some t → ∀ conn,
      t.NewAgent conn =
        (({ conn := .tcp conn, gate := gate, userData := none } : agent),
          match gate.AgentChanRPC with
          | some rpc => [Event.Go rpc "NewAgent"
              [({ conn := .tcp conn, gate := gate, userData := none } : agent)]]
          | none => [])) := by
  have key : ∀ port isWSS s, gate.newWSServer port isWSS = .ok s → ∀ conn,
      s.NewAgent conn =
        (({ conn := .ws conn, gate := gate, userData := none } : agent),
          match gate.AgentChanRPC with
          | some rpc => [Event.Go rpc "NewAgent"
              [({ conn := .ws conn, gate := gate, userData := none } : agent)]]
          | none => []) := by
    intro port isWSS s hs conn
    cases isWSS with
    | false =>
      obtain ⟨p, hp, -, -, -, -, -, -, -, hf⟩ := gate.newWSServer_plain port
      obtain rfl : p = s := Except.ok.inj (hp.symm.trans hs)
      exact hf conn
    | true =>
      by_cases hc : gate.CertFile = "" ∨ gate.KeyFile = ""
      · rw [gate.newWSServer_panic port hc] at hs
        cases hs
      · obtain ⟨q, hq, -, -, -, -, -, -, -, hf⟩ :=
          gate.newWSServer_secure port (fun e => hc (Or.inl e)) (fun e => hc (Or.inr e))
        obtain rfl : q = s := Except.ok.inj (hq.symm.trans hs)
        exact hf conn
  refine ⟨key, ?_, ?_⟩
  · by_cases hc : gate.WSAddr ≠ "" ∧ gate.WSSPort ≠ "" ∧
        (gate.CertFile = "" ∨ gate.KeyFile = "")
    · obtain ⟨-, -, -, plain, hp, hw⟩ := gate.Run_panics closeSig hc
      intro s hs
      rw [hw] at hs
      by_cases h2 : gate.WSPort = ""
      · simp [h2] at hs
      · simp [h2] at hs
        subst hs
        exact key _ _ _ hp
    · obtain ⟨plain, secure, tcp, hp, hs, -, hw, -, -, -⟩ := gate.Run_built closeSig hc
      intro s hmem
      rw [hw] at hmem
      rcases List.mem_append.1 hmem with hm | hm
      · by_cases h1 : gate.WSAddr ≠ "" ∧ gate.WSPort ≠ ""
        · rw [if_pos h1] at hm
          obtain rfl := List.mem_singleton.1 hm
          exact key _ _ _ hp
        · rw [if_neg h1] at hm
          cases hm
      · by_cases h2 : gate.WSAddr ≠ "" ∧ gate.WSSPort ≠ ""
        · rw [if_pos h2] at hm
          obtain rfl := List.mem_singleton.1 hm
          exact key _ _ _ (hs h2)
        · rw [if_neg h2] at hm
          cases hm
  · by_cases hc : gate.WSAddr ≠ "" ∧ gate.WSSPort ≠ "" ∧
        (gate.CertFile = "" ∨ gate.KeyFile = "")
    · obtain ⟨-, -, ht, -⟩ := gate.Run_panics closeSig hc
      intro t h
      rw [ht] at h
      cases h
    · obtain ⟨plain, secure, tcp, -, -, ht, -, htc, -, -⟩ := gate.Run_built closeSig hc
      intro t h
      rw [htc] at h
      by_cases h4 : gate.TCPAddr ≠ ""
      · rw [if_pos h4] at h
        obtain rfl := Option.some.inj h
        exact ht.2.2.2.2.2.2
      · rw [if_neg h4] at h
        cases h

/-! ## agent.OnClose -/

/-- C8: one call of `agent.OnClose` returns normally whatever `Call0` answers.  With
`AgentChanRPC` absent it makes no call.  With it present it makes exactly one
`Call0("CloseAgent", agent)` carrying the agent, followed only by an error-level log
entry when `Call0` returned an error.  It makes no call on the connection. -/
theorem agent.OnClose_dispatch {σ : Type} (w : World σ) (a : agent) (s : σ) :
    (a.OnClose w s).returned = true ∧
    (a.gate.AgentChanRPC = none → (a.OnClose w s).trace = []) ∧
    (∀ rpc, a.gate.AgentChanRPC = some rpc →
      (a.OnClose w s).trace =
        Event.Call0 rpc "CloseAgent" [a] (w.Call0 rpc "CloseAgent" [a] s).1 ::
          (match (w.Call0 rpc "CloseAgent" [a] s).1 with
           | some err => [Event.logError "chanrpc error: %v" [.err err]]
           | none => [])) ∧
    (∀ e ∈ (a.OnClose w s).trace, e.onConn = false) := by
  unfold agent.OnClose
  cases hr : a.gate.AgentChanRPC with
  | none => simp
  | some rpc =>
    rcases hc : w.Call0 rpc "CloseAgent" [a] s with ⟨res, s1⟩
    cases res <;> simp [hc, Event.onConn]

/-! ## agent.WriteMsg -/

/-- C4: `agent.WriteMsg` returns normally in every case.  With no Processor it makes no
call at all.  When `Marshal` fails the only calls are the `Marshal` and an error-level
log entry, so the connection's `WriteMsg` is not called.  When `Marshal` succeeds the
connection's `WriteMsg` is called exactly once, with exactly the frames `Marshal`
returned, followed only by an error-level log entry when the write failed. -/
theorem agent.WriteMsg_calls {σ : Type} (w : World σ) (a : agent) (msg : Any) (s : σ) :
    (a.WriteMsg w msg s).returned = true ∧
    (a.gate.Processor = none → (a.WriteMsg w msg s).trace = []) ∧
    (∀ p err, a.gate.Processor = some p → (w.Marshal p msg s).1 = .error err →
      (a.WriteMsg w msg s).trace =
        [Event.Marshal p msg (.error err),
         Event.logError "marshal message %v error: %v" [.typeOf msg, .err err]]) ∧
    (∀ p data, a.gate.Processor = some p → (w.Marshal p msg s).1 = .ok data →
      (a.WriteMsg w msg s).trace =
        Event.Marshal p msg (.ok data) ::
          Event.WriteMsg a.conn data (w.WriteMsg a.conn data (w.Marshal p msg s).2).1 ::
            (match (w.WriteMsg a.conn data (w.Marshal p msg s).2).1 with
             | some err =>
               [Event.logError "write message %v error: %v" [.typeOf msg, .err err]]
             | none => [])) := by
  refine ⟨?_, ?_, ?_, ?_⟩
  · unfold agent.WriteMsg
    cases hp : a.gate.Processor with
    | none => rfl
    | some p =>
      rcases hm : w.Marshal p msg s with ⟨res, s1⟩
      cases res with
      | error err => simp [hm]
      | ok data =>
        rcases hw : w.WriteMsg a.conn data s1 with ⟨res2, s2⟩
        cases res2 <;> simp [hm, hw]
  · intro hp
    simp [agent.WriteMsg, hp]
  · intro p err hp he
    rcases hm : w.Marshal p msg s with ⟨res, s1⟩
    rw [hm] at he
    subst he
    simp [agent.WriteMsg, hp, hm]
  · intro p data hp hd
    rcases hm : w.Marshal p msg s with ⟨res, s1⟩
    rw [hm] at hd
    subst hd
    rcases hw : w.WriteMsg a.conn data s1 with ⟨res2, s2⟩
    cases res2 <;> simp [agent.WriteMsg, hp, hm, hw]

/-! ## agent.Run -/

theorem agent.Run_nil {σ : Type} (w : World σ) (a : agent) (s : σ) :
    a.Run w [] s = { state := s, trace := [], returned := false } := by
  unfold agent.Run
  rfl

theorem agent.Run_read_error {σ : Type} (w : World σ) (a : agent) (err : Error)
    (reads : List (Except Error Frame)) (s : σ) :
    a.Run w (.error err :: reads) s =
      { state := s
        trace := [Event.ReadMsg a.conn (.error err),
                  Event.logDebug "read message: %v" [.err err]]
        returned := true } := by
  unfold agent.Run
  rfl

theorem agent.Run_read_ok_none {σ : Type} (w : World σ) (a : agent)
    (h : a.gate.Processor = none) (data : Frame) (reads : List (Except Error Frame))
    (s : σ) :
    a.Run w (.ok data :: reads) s =
      { state := (a.Run w reads s).state
        trace := Event.ReadMsg a.conn (.ok data) :: (a.Run w reads s).trace
        returned := (a.Run w reads s).returned } := by
  conv => lhs; unfold agent.Run
  simp only [h]

theorem readCalls_append (l₁ l₂ : List Event) :
    readCalls (l₁ ++ l₂) = readCalls l₁ + readCalls l₂ := by
  induction l₁ with
  | nil => simp [readCalls]
  | cons e es ih =>
    cases e <;> simp [readCalls, ih]
    omega

theorem readCalls_map_ReadMsg (conn : network.Conn) (frames : List Frame) :
    readCalls (frames.map (fun d => Event.ReadMsg conn (.ok d))) = frames.length := by
  induction frames with
  | nil => rfl
  | cons d ds ih => simp [readCalls, ih]

/-- C5: with no Processor, `agent.Run` makes no `Unmarshal` and no `Route` call on any
sequence of read results.  When the first `n` results are frames and the next is an
error it returns after exactly `n + 1` reads, the `n` successful ones followed by the
failing one, whatever results would follow.  While every result is a frame it keeps
reading: after `n` frames it has made the `n` reads and has not returned. -/
theorem agent.Run_without_processor {σ : Type} (w : World σ) (a : agent)
    (h : a.gate.Processor = none) (frames : List Frame) (s : σ) :
    (∀ err rest,
      a.Run w (frames.map Except.ok ++ Except.error err :: rest) s =
        { state := s
          trace := frames.map (fun d => Event.ReadMsg a.conn (.ok d)) ++
            [Event.ReadMsg a.conn (.error err), Event.logDebug "read message: %v" [.err err]]
          returned := true } ∧
      readCalls (a.Run w (frames.map Except.ok ++ Except.error err :: rest) s).trace =
        frames.length + 1) ∧
    a.Run w (frames.map Except.ok) s =
      { state := s
        trace := frames.map (fun d => Event.ReadMsg a.conn (.ok d))
        returned := false } ∧
    (∀ reads, ∀ e ∈ (a.Run w reads s).trace, e.onProcessor = false) := by
  have h1 : ∀ (fs : List Frame) err rest,
      a.Run w (fs.map Except.ok ++ Except.error err :: rest) s =
        { state := s
          trace := fs.map (fun d => Event.ReadMsg a.conn (.ok d)) ++
            [Event.ReadMsg a.conn (.error err), Event.logDebug "read message: %v" [.err err]]
          returned := true } := by
    intro fs err rest
    induction fs with
    | nil => exact agent.Run_read_error w a err rest s
    | cons d ds ih =>
      rw [List.map_cons, List.cons_append, agent.Run_read_ok_none w a h, ih]
      rfl
  have h2 : ∀ fs : List Frame,
      a.Run w (fs.map Except.ok) s =
        { state := s
          trace := fs.map (fun d => Event.ReadMsg a.conn (.ok d))
          returned := false } := by
    intro fs
    induction fs with
    | nil => exact agent.Run_nil w a s
    | cons d ds ih =>
      rw [List.map_cons, agent.Run_read_ok_none w a h, ih]
      rfl
  refine ⟨fun err rest => ⟨h1 frames err rest, ?_⟩, h2 frames, ?_⟩
  · rw [h1 frames err rest]
    simp [readCalls_append, readCalls_map_ReadMsg, readCalls]
  · intro reads
    induction reads with
    | nil => simp [agent.Run_nil]
    | cons r rs ih =>
      cases r with
      | error err => simp [agent.Run_read_error, Event.onProcessor]
      | ok data =>
        rw [agent.Run_read_ok_none w a h]
        intro e he
        rcases List.mem_cons.1 he with rfl | he
        · rfl
        · exact ih e he

theorem agent.Run_read_ok_some {σ : Type} (w : World σ) (a : agent) (p : network.Processor)
    (h : a.gate.Processor = some p) (data : Frame) (reads : List (Except Error Frame))
    (s : σ) :
    a.Run w (.ok data :: reads) s =
      match w.Unmarshal p data s with
      | (.error err, s1) =>
        { state := s1
          trace := [Event.ReadMsg a.conn (.ok data), Event.Unmarshal p data (.error err),
                    Event.logDebug "unmarshal message error: %v" [.err err]]
          returned := true }
      | (.ok msg, s1) =>
        match w.Route p msg a s1 with
        | (some err, s2) =>
          { state := s2
            trace := [Event.ReadMsg a.conn (.ok data), Event.Unmarshal p data (.ok msg),
                      Event.Route p msg a (some err),
                      Event.logDebug "route message error: %v" [.err err]]
            returned := true }
        | (none, s2) =>
          { state := (a.Run w reads s2).state
            trace := [Event.ReadMsg a.conn (.ok data), Event.Unmarshal p data (.ok msg),
                      Event.Route p msg a none] ++ (a.Run w reads s2).trace
            returned := (a.Run w reads s2).returned } := by
  conv => lhs; unfold agent.Run
  simp only [h]

theorem routed_append (l₁ l₂ : List Event) : routed (l₁ ++ l₂) = routed l₁ ++ routed l₂ := by
  induction l₁ with
  | nil => rfl
  | cons e es ih => cases e <;> simp [routed, ih]

theorem routed_completed (a : agent) (p : network.Processor) (done : List (Frame × Any)) :
    routed (completed a p done) = done.map (fun x => (x.2, a)) := by
  induction done with
  | nil => rfl
  | cons x xs ih =>
    obtain ⟨data, msg⟩ := x
    simp [completed, routed, ih]

/-- C3: with a Processor, on every sequence of read results `agent.Run` performs a run
of iterations `done` in which the world answers the decode and the route of each frame
without error (`succeeds`), one per frame of the sequence in order, each message routed
once with the agent itself, and then either is still reading (the sequence was
consumed) or stops at the first step the world fails: a read error, an `Unmarshal` error
(that frame is not routed) or a `Route` error.  After the failing step the only further
event is the debug log entry; the rest of the sequence is never read, decoded or
routed. -/
theorem agent.Run_stops_at_first_failure {σ : Type} (w : World σ) (a : agent)
    (p : network.Processor) (h : a.gate.Processor = some p)
    (reads : List (Except Error Frame)) (s : σ) :
    ∃ (done : List (Frame × Any)) (last : List Event)
      (pending : List (Except Error Frame)) (s' : σ),
      reads = done.map (fun x => Except.ok x.1) ++ pending ∧
      succeeds w a p done s s' ∧
      (a.Run w reads s).trace = completed a p done ++ last ∧
      ((pending = [] ∧ last = [] ∧ (a.Run w reads s).returned = false ∧
          (a.Run w reads s).state = s' ∧
          routed (a.Run w reads s).trace = done.map (fun x => (x.2, a))) ∨
       (∃ err rest, pending = .error err :: rest ∧
          last = [Event.ReadMsg a.conn (.error err),
                  Event.logDebug "read message: %v" [.err err]] ∧
          (a.Run w reads s).returned = true ∧
          (a.Run w reads s).state = s' ∧
          routed (a.Run w reads s).trace = done.map (fun x => (x.2, a))) ∨
       (∃ data err rest, pending = .ok data :: rest ∧
          (w.Unmarshal p data s').1 = .error err ∧
          last = [Event.ReadMsg a.conn (.ok data), Event.Unmarshal p data (.error err),
                  Event.logDebug "unmarshal message error: %v" [.err err]] ∧
          (a.Run w reads s).returned = true ∧
          (a.Run w reads s).state = (w.Unmarshal p data s').2 ∧
          routed (a.Run w reads s).trace = done.map (fun x => (x.2, a))) ∨
       (∃ data msg err rest, pending = .ok data :: rest ∧
          (w.Unmarshal p data s').1 = .ok msg ∧
          (w.Route p msg a (w.Unmarshal p data s').2).1 = some err ∧
          last = [Event.ReadMsg a.conn (.ok data), Event.Unmarshal p data (.ok msg),
                  Event.Route p msg a (some err),
                  Event.logDebug "route message error: %v" [.err err]] ∧
          (a.Run w reads s).returned = true ∧
          (a.Run w reads s).state = (w.Route p msg a (w.Unmarshal p data s').2).2 ∧
          routed (a.Run w reads s).trace = done.map (fun x => (x.2, a)) ++ [(msg, a)])) := by
  induction reads generalizing s with
  | nil =>
    refine ⟨[], [], [], s, rfl, rfl, ?_, Or.inl ⟨rfl, rfl, ?_, ?_, ?_⟩⟩ <;>
      simp [agent.Run_nil, completed, routed]
  | cons r rs ih =>
    cases r with
    | error err =>
      refine ⟨[], _, _, s, rfl, rfl, ?_, Or.inr (Or.inl ⟨err, rs, rfl, rfl, ?_, ?_, ?_⟩)⟩ <;>
        simp [agent.Run_read_error, completed, routed]
    | ok data =>
      rw [agent.Run_read_ok_some w a p h]
      rcases hu : w.Unmarshal p data s with ⟨res, s1⟩
      cases res with
      | error err =>
        refine ⟨[], _, _, s, rfl, rfl, ?_,
          Or.inr (Or.inr (Or.inl ⟨data, err, rs, rfl, ?_, rfl, ?_, ?_, ?_⟩))⟩ <;>
          simp [hu, completed, routed]
      | ok msg =>
        rcases hr : w.Route p msg a s1 with ⟨res2, s2⟩
        cases res2 with
        | some err =>
          refine ⟨[], _, _, s, rfl, rfl, ?_,
            Or.inr (Or.inr (Or.inr ⟨data, msg, err, rs, rfl, ?_, ?_, rfl, ?_, ?_, ?_⟩))⟩ <;>
            simp [hu, hr, completed, routed]
        | none =>
          simp only [hr]
          obtain ⟨done, last, pending, s', hreads, hsucc, htrace, hcases⟩ := ih s2
          refine ⟨(data, msg) :: done, last, pending, s', ?_, ⟨s1, s2, hu, hr, hsucc⟩, ?_, ?_⟩
          · simp [hreads]
          · simp [htrace, completed]
          · simp only [htrace]
            rcases hcases with ⟨h1, h2, h3, h4, h5⟩ | ⟨err, rest, h1, h2, h3, h4, h5⟩ |
              ⟨d, err, rest, h1, h0, h2, h3, h4, h5⟩ |
              ⟨d, m, err, rest, h1, h0, h0', h2, h3, h4, h5⟩
            · refine Or.inl ⟨h1, h2, h3, h4, ?_⟩
              rw [htrace] at h5
              simp [routed, h5]
            · refine Or.inr (Or.inl ⟨err, rest, h1, h2, h3, h4, ?_⟩)
              rw [htrace] at h5
              simp [routed, h5]
            · refine Or.inr (Or.inr (Or.inl ⟨d, err, rest, h1, h0, h2, h3, h4, ?_⟩))
              rw [htrace] at h5
              simp [routed, h5]
            · refine Or.inr (Or.inr (Or.inr ⟨d, m, err, rest, h1, h0, h0', h2, h3, h4, ?_⟩))
              rw [htrace] at h5
              simp [routed, h5]

/-! ## Instances on concrete inputs -/

/-- Witness for C3: the second frame fails to decode. -/
theorem agent.Run_stops_at_first_failure_witness :
    tcpAgent.gate.Processor = some ⟨1⟩ ∧
    ∃ (done : List (Frame × Any)) (last : List Event)
      (pending : List (Except Error Frame)) (s' : Nat),
      undecodableReads = done.map (fun x => Except.ok x.1) ++ pending ∧
      succeeds countingWorld tcpAgent ⟨1⟩ done 0 s' ∧
      (tcpAgent.Run countingWorld undecodableReads 0).trace =
        completed tcpAgent ⟨1⟩ done ++ last ∧
      ((pending = [] ∧ last = [] ∧
          (tcpAgent.Run countingWorld undecodableReads 0).returned = false ∧
          (tcpAgent.Run countingWorld undecodableReads 0).state = s' ∧
          routed (tcpAgent.Run countingWorld undecodableReads 0).trace =
            done.map (fun x => (x.2, tcpAgent))) ∨
       (∃ err rest, pending = .error err :: rest ∧
          last = [Event.ReadMsg tcpAgent.conn (.error err),
                  Event.logDebug "read message: %v" [.err err]] ∧
          (tcpAgent.Run countingWorld undecodableReads 0).returned = true ∧
          (tcpAgent.Run countingWorld undecodableReads 0).state = s' ∧
          routed (tcpAgent.Run countingWorld undecodableReads 0).trace =
            done.map (fun x => (x.2, tcpAgent))) ∨
       (∃ data err rest, pending = .ok data :: rest ∧
          (countingWorld.Unmarshal ⟨1⟩ data s').1 = .error err ∧
          last = [Event.ReadMsg tcpAgent.conn (.ok data),
                  Event.Unmarshal ⟨1⟩ data (.error err),
                  Event.logDebug "unmarshal message error: %v" [.err err]] ∧
          (tcpAgent.Run countingWorld undecodableReads 0).returned = true ∧
          (tcpAgent.Run countingWorld undecodableReads 0).state =
            (countingWorld.Unmarshal ⟨1⟩ data s').2 ∧
          routed (tcpAgent.Run countingWorld undecodableReads 0).trace =
            done.map (fun x => (x.2, tcpAgent))) ∨
       (∃ data msg err rest, pending = .ok data :: rest ∧
          (countingWorld.Unmarshal ⟨1⟩ data s').1 = .ok msg ∧
          (countingWorld.Route ⟨1⟩ msg tcpAgent
            (countingWorld.Unmarshal ⟨1⟩ data s').2).1 = some err ∧
          last = [Event.ReadMsg tcpAgent.conn (.ok data),
                  Event.Unmarshal ⟨1⟩ data (.ok msg),
                  Event.Route ⟨1⟩ msg tcpAgent (some err),
                  Event.logDebug "route message error: %v" [.err err]] ∧
          (tcpAgent.Run countingWorld undecodableReads 0).returned = true ∧
          (tcpAgent.Run countingWorld undecodableReads 0).state =
            (countingWorld.Route ⟨1⟩ msg tcpAgent
              (countingWorld.Unmarshal ⟨1⟩ data s').2).2 ∧
          routed (tcpAgent.Run countingWorld undecodableReads 0).trace =
            done.map (fun x => (x.2, tcpAgent)) ++ [(msg, tcpAgent)])) :=
  ⟨rfl, agent.Run_stops_at_first_failure countingWorld tcpAgent ⟨1⟩ rfl undecodableReads 0⟩

/-- The run of the C3 witness, evaluated: one frame routed, the undecodable frame read
and rejected, nothing after it. -/
theorem agent.Run_undecodable_trace :
    (tcpAgent.Run countingWorld undecodableReads 0).trace =
      [Event.ReadMsg (.tcp ⟨3⟩) (.ok [5, 1]), Event.Unmarshal ⟨1⟩ [5, 1] (.ok ⟨5⟩),
       Event.Route ⟨1⟩ ⟨5⟩ tcpAgent none,
       Event.ReadMsg (.tcp ⟨3⟩) (.ok []), Event.Unmarshal ⟨1⟩ [] (.error ⟨"empty frame"⟩),
       Event.logDebug "unmarshal message error: %v" [.err ⟨"empty frame"⟩]] ∧
    (tcpAgent.Run countingWorld undecodableReads 0).returned = true ∧
    (tcpAgent.Run countingWorld undecodableReads 0).state = 3 ∧
    routed (tcpAgent.Run countingWorld undecodableReads 0).trace = [(⟨5⟩, tcpAgent)] := by
  refine ⟨rfl, rfl, rfl, rfl⟩

/-- Witness for C5: two frames, then a read error, then results that are never read. -/
theorem agent.Run_without_processor_witness :
    bareAgent.gate.Processor = none ∧
    (∀ err rest,
      bareAgent.Run countingWorld
          (([[1, 2], [3]] : List Frame).map Except.ok ++ Except.error err :: rest) 0 =
        { state := 0
          trace := [Event.ReadMsg (.ws ⟨4⟩) (.ok [1, 2]), Event.ReadMsg (.ws ⟨4⟩) (.ok [3]),
            Event.ReadMsg (.ws ⟨4⟩) (.error err), Event.logDebug "read message: %v" [.err err]]
          returned := true } ∧
      readCalls (bareAgent.Run countingWorld
          (([[1, 2], [3]] : List Frame).map Except.ok ++ Except.error err :: rest) 0).trace =
        3) ∧
    bareAgent.Run countingWorld (([[1, 2], [3]] : List Frame).map Except.ok) 0 =
      { state := 0
        trace := [Event.ReadMsg (.ws ⟨4⟩) (.ok [1, 2]), Event.ReadMsg (.ws ⟨4⟩) (.ok [3])]
        returned := false } ∧
    (∀ reads, ∀ e ∈ (bareAgent.Run countingWorld reads 0).trace, e.onProcessor = false) :=
  ⟨rfl, agent.Run_without_processor countingWorld bareAgent rfl [[1, 2], [3]] 0⟩

/-- Instance of C8: the second `Call0` of `countingWorld` fails; `OnClose` returns, with
the one dispatch and the log entry, and an agent without `AgentChanRPC` makes no call. -/
theorem agent.OnClose_dispatch_witness :
    (tcpAgent.OnClose countingWorld 1).returned = true ∧
    (tcpAgent.OnClose countingWorld 1).trace =
      [Event.Call0 ⟨7⟩ "CloseAgent" [tcpAgent] (some ⟨"server closed"⟩),
       Event.logError "chanrpc error: %v" [.err ⟨"server closed"⟩]] ∧
    (bareAgent.OnClose countingWorld 1).trace = [] :=
  ⟨(agent.OnClose_dispatch countingWorld tcpAgent 1).1,
    (agent.OnClose_dispatch countingWorld tcpAgent 1).2.2.1 ⟨7⟩ rfl,
    (agent.OnClose_dispatch countingWorld bareAgent 1).2.1 rfl⟩

/-- Instance of C4: a message that marshals to one frame is written once; a message
`Marshal` rejects is logged and not written; without a Processor nothing is called. -/
theorem agent.WriteMsg_calls_witness :
    (tcpAgent.WriteMsg countingWorld ⟨8⟩ 0).trace =
      [Event.Marshal ⟨1⟩ ⟨8⟩ (.ok [[8]]), Event.WriteMsg (.tcp ⟨3⟩) [[8]] none] ∧
    (tcpAgent.WriteMsg countingWorld ⟨0⟩ 0).trace =
      [Event.Marshal ⟨1⟩ ⟨0⟩ (.error ⟨"unregistered"⟩),
       Event.logError "marshal message %v error: %v"
         [.typeOf ⟨0⟩, .err ⟨"unregistered"⟩]] ∧
    (bareAgent.WriteMsg countingWorld ⟨8⟩ 0).trace = [] ∧
    (bareAgent.WriteMsg countingWorld ⟨8⟩ 0).returned = true :=
  ⟨(agent.WriteMsg_calls countingWorld tcpAgent ⟨8⟩ 0).2.2.2 ⟨1⟩ [[8]] rfl rfl,
    (agent.WriteMsg_calls countingWorld tcpAgent ⟨0⟩ 0).2.2.1 ⟨1⟩ ⟨"unregistered"⟩ rfl rfl,
    (agent.WriteMsg_calls countingWorld bareAgent ⟨8⟩ 0).2.1 rfl,
    (agent.WriteMsg_calls countingWorld bareAgent ⟨8⟩ 0).1⟩

/-- Instance of C2: a gate with the secure port set and no key file panics with nothing
started, although it also has a plain port and a TCP address. -/
theorem Gate.Run_panics_before_start_witness :
    (keylessGate.Run (some true)).outcome = .panicked "lack of SSL cert or key file" ∧
    (keylessGate.Run (some true)).trace = [] :=
  (Gate.Run_panics_before_start keylessGate (some true)).1.1 (by decide)

/-- Instance of C7: the factory of the TCP server of `tcpOnlyGate`, applied to a
connection, yields the agent bound to it and one `Go("NewAgent", agent)`. -/
theorem Gate.factories_make_agent_witness :
    ∃ t, (tcpOnlyGate.Run none).tcpServer = some t ∧
      t.NewAgent ⟨3⟩ = (tcpAgent, [Event.Go ⟨7⟩ "NewAgent" [tcpAgent]]) :=
  ⟨_, rfl, (Gate.factories_make_agent tcpOnlyGate none).2.2 _ rfl ⟨3⟩⟩

end gate
